import Mathlib

/-!
# Model of the Teams bot message handler (src/src/main.py)

A shallow embedding of the bot's only runtime logic, the `handle_message`
coroutine: per-conversation history storage (`conversation_history`, a
process-wide dict from conversation id to a list of turns), prompt assembly
(`contextual_input`), instruction construction (`full_instructions`), and
the success / empty-response / exception branches around the model call.

The Python dict is modelled as an association list; dict mutation survives a
later exception, so the fallible try-body threads the store through its
error case. The typing acknowledgment (`ctx.reply(TypingActivityInput())`)
stands before the `try:` block and is modelled as a fallible action whose
failure propagates. `result.response and result.response.content` is
modelled as an `Option String` whose Python truthiness is
`some c` with `c` non-empty.
-/

namespace Batool

/-- One conversation turn, `{"role": ..., "content": ...}` as appended by
`handle_message`. -/
structure Turn where
  role : String
  content : String
deriving DecidableEq, Repr

/-- The process-wide `conversation_history : dict[str, list]`, modelled as an
association list from conversation id to the stored turn list. -/
abbrev HistoryStore := List (String × List Turn)

/-- Dict lookup: `conversation_history[cid]` / `cid in conversation_history`. -/
def histFind : HistoryStore → String → Option (List Turn)
  | [], _ => none
  | (k, v) :: rest, cid => if k = cid then some v else histFind rest cid

/-- Dict assignment `conversation_history[cid] = ts` (insertion order kept). -/
def histSet : HistoryStore → String → List Turn → HistoryStore
  | [], cid, ts => [(cid, ts)]
  | (k, v) :: rest, cid, ts =>
    if k = cid then (k, ts) :: rest else (k, v) :: histSet rest cid ts

/-- The turn list stored for a conversation (empty when the key is absent). -/
def turnsOf (s : HistoryStore) (cid : String) : List Turn :=
  (histFind s cid).getD []

/-- Lines 176-177: `if conversation_id not in conversation_history:
conversation_history[conversation_id] = []`. -/
def initConversation (s : HistoryStore) (cid : String) : HistoryStore :=
  match histFind s cid with
  | some _ => s
  | none => histSet s cid []

/-- Lines 283-290: the two `.append` calls of the success branch, a `user`
turn with the inbound text then an `assistant` turn with the response. -/
def appendExchange (s : HistoryStore) (cid user_message ai_response : String) :
    HistoryStore :=
  histSet s cid (turnsOf s cid ++
    [{ role := "user", content := user_message },
     { role := "assistant", content := ai_response }])

/-- Line 184: `user_context_prefix = f"User ({user_name})" if user_name else
"User"` (Python truthiness: the empty string counts as no name). -/
def userContextPrefix (user_name : String) : String :=
  if user_name ≠ "" then "User (" ++ user_name ++ ")" else "User"

/-- Lines 190-193: one line of the rendered history,
`f"User: {content}"` for a user turn, `f"Assistant: {content}"` otherwise. -/
def renderTurn (msg : Turn) : String :=
  if msg.role = "user" then "User: " ++ msg.content
  else "Assistant: " ++ msg.content

/-- Python slicing `l[-5:]`: the whole list when it has at most five
elements, its last five otherwise. -/
def lastFive (l : List Turn) : List Turn := l.drop (l.length - 5)

/-- Line 190: `"\n".join(...)` over the rendered recent history. -/
def contextSummary (recent : List Turn) : String :=
  String.intercalate "\n" (recent.map renderTurn)

/-- Lines 187-196: the assembled prompt `contextual_input`. With stored
history it is the rendered window before the current request; otherwise
just the current request. -/
def contextualInput (hist : List Turn) (user_name user_message : String) :
    String :=
  if 0 < hist.length then
    "Conversation history:\n" ++ contextSummary (lastFive hist) ++ "\n\n"
      ++ userContextPrefix user_name ++ " request: " ++ user_message
  else
    userContextPrefix user_name ++ " request: " ++ user_message

/-- Lines 199-201: `user_metadata_note`, empty without a resolvable sender
name. -/
def userMetadataNote (user_name : String) : String :=
  if user_name ≠ "" then
    "\n\n## CURRENT USER CONTEXT\nThe person making this request is: "
      ++ user_name
      ++ ". Use this name for tools that require userName or sender parameters."
  else ""

/-- Lines 203-270: the static instruction block, verbatim. -/
def base_instructions : String := "CRITICAL SYSTEM REQUIREMENT
You MUST NOT use emojis, special characters, or any Unicode characters above ASCII 255.
Use only plain text: letters (A-Z, a-z), numbers (0-9), and basic punctuation (. , ! ? - ' \").
Violations will cause system errors. This is a hard technical constraint.

You are Billi, a friendly and efficient assistant for ARVAYA Consulting.

## YOUR ROLE
You are a THIN CLIENT that routes user requests to MCP server tools. The MCP servers handle ALL intelligence, date parsing, business logic, and data processing. You do NOT interpret, convert, or process dates, times, or any data - you ONLY call tools with the exact information from the user.

## YOUR AVAILABLE TOOLS

### Time Entry Tool (from time entry MCP server):
- process_time_entry - Submit time entries to QuickBooks and Monday.com
  When to use: User mentions logging time, time entry, hours worked, submitting time
  Required: messageText (use the EXACT user message), userName

### Calendar Tools (from calendar MCP server):
- get_users_with_name_and_email - Find user email addresses by name
  When to use: User mentions a person's name and you need their email address
  
- check_availability - Check calendar availability for a user
  When to use: User asks about availability, free time, when someone is available, schedule
  Required: user_email (get from get_users_with_name_and_email first if only name provided)
  IMPORTANT: Pass dates/times EXACTLY as the user said them - \"tomorrow\", \"next Monday\", \"1/3/2026\", etc. The MCP server will parse them.
  
- book_meeting - Book a meeting in a user's calendar
  When to use: User wants to schedule, book, or set up a meeting, appointment
  Required: user_email, subject, start_datetime, end_datetime, sender
  IMPORTANT: Pass dates/times EXACTLY as the user said them. DO NOT convert \"tomorrow\" to a date - pass \"tomorrow\" to the MCP server.

## USER CONTEXT
The user making this request is identified in the message. Use their name when tools require a sender or userName parameter.

## CRITICAL INSTRUCTIONS - READ CAREFULLY

1. DO NOT interpret or convert dates/times. If user says \"tomorrow\", pass \"tomorrow\" to MCP tools. If user says \"1/3/2026\", pass \"1/3/2026\". The MCP server handles ALL date parsing.

2. DO NOT add your own date interpretations to responses. Only use dates that come back from MCP tool results.

3. When a user asks about availability or booking:
   - DO NOT just greet them - IMMEDIATELY use the appropriate tool
   - If they mention a person's name, call get_users_with_name_and_email FIRST to get their email
   - Then call check_availability or book_meeting with the email address
   - Pass dates/times EXACTLY as the user provided them - the MCP server will parse them correctly

4. For book_meeting, the sender parameter should be the name of the person making the request (from the user context).
5. For process_time_entry, the userName parameter should be the name of the person making the request (from the user context).

6. Tool Usage Examples:
   - User: \"check availability of David Hogg\" -> call get_users_with_name_and_email(\"David Hogg\"), then check_availability with returned email
   - User: \"book a meeting with Sarah tomorrow at 2pm\" -> call get_users_with_name_and_email(\"Sarah\"), then book_meeting with start_datetime=\"tomorrow 2pm\" (NOT a converted date)
   - User: \"book Ryan for 1/3/2026 at 9am\" -> call get_users_with_name_and_email(\"Ryan\"), then book_meeting with start_datetime=\"1/3/2026 9am\"
   - User: \"who is John Smith\" -> call get_users_with_name_and_email(\"John Smith\")
   - User: \"log 4 hours for project X\" -> call process_time_entry with messageText=\"log 4 hours for project X\"

## DATE/TIME HANDLING - CRITICAL
- The MCP servers handle ALL date parsing, timezone conversion, and business logic
- You MUST pass dates/times EXACTLY as the user provides them: \"tomorrow\", \"today\", \"next Monday\", \"1/3/2026\", \"2pm\", etc.
- DO NOT convert \"tomorrow\" to \"October 27th\" or any specific date - pass \"tomorrow\" to the MCP server
- DO NOT interpret relative dates - let the MCP server do it
- Only use specific dates in your responses if they come from MCP tool results

## COMMUNICATION STYLE
- First interaction: Brief greeting only if no action is requested
- When user requests an action: Execute the tool IMMEDIATELY with exact user input, then confirm the result
- Be concise and action-oriented
- After tool execution, provide a clear summary using information from the tool results"

/-- Line 273: `full_instructions = base_instructions + user_metadata_note`. -/
def fullInstructions (user_name : String) : String :=
  base_instructions ++ userMetadataNote user_name

/-- The inbound message event: `ctx.activity.text` and
`ctx.activity.conversation.id`. -/
structure InboundMessage where
  text : String
  conversationId : String
deriving DecidableEq, Repr

/-- Line 298: the reply of the `except` handler,
`f"Sorry, I encountered an error: {error_msg}"`. -/
def errorReply (e : String) : String := "Sorry, I encountered an error: " ++ e

/-- Line 293: the fixed fallback reply for an empty or absent response. -/
def fallbackReply : String := "I'm sorry, I couldn't generate a response."

/-- The body of the `try:` block (lines 143-293), parametrised over its
fallible steps: sender resolution, history lookup (which also creates the
empty entry), prompt assembly, instruction construction and the model call.
An error carries the failure description together with the store as mutated
so far, since Python dict mutations survive a later exception. On normal
exit the result is the list of texts replied and the updated store. -/
def tryBody (resolveSender : Except String String)
    (historyStep : HistoryStore → String → Except String (HistoryStore × List Turn))
    (promptStep : List Turn → String → String → Except String String)
    (instrStep : String → Except String String)
    (modelStep : String → String → Except String (Option String))
    (store : HistoryStore) (msg : InboundMessage) :
    Except (String × HistoryStore) (List String × HistoryStore) :=
  match resolveSender with
  | .error e => .error (e, store)
  | .ok user_name =>
    match historyStep store msg.conversationId with
    | .error e => .error (e, store)
    | .ok (store1, hist) =>
      match promptStep hist user_name msg.text with
      | .error e => .error (e, store1)
      | .ok contextual_input =>
        match instrStep user_name with
        | .error e => .error (e, store1)
        | .ok full_instructions =>
          match modelStep contextual_input full_instructions with
          | .error e => .error (e, store1)
          | .ok content =>
            match content with
            | some ai_response =>
              if ai_response ≠ "" then
                .ok ([ai_response],
                  appendExchange store1 msg.conversationId msg.text ai_response)
              else
                .ok ([fallbackReply], store1)
            | none => .ok ([fallbackReply], store1)

/-- The whole handler. The typing acknowledgment (line 141) stands before
the `try:`, so its failure propagates; every failure inside the try-body is
converted to the error reply of line 298. The `.ok` result is the list of
replies after the typing indicator and the final store. -/
def handleMessageRaw (typing : Except String Unit)
    (resolveSender : Except String String)
    (historyStep : HistoryStore → String → Except String (HistoryStore × List Turn))
    (promptStep : List Turn → String → String → Except String String)
    (instrStep : String → Except String String)
    (modelStep : String → String → Except String (Option String))
    (store : HistoryStore) (msg : InboundMessage) :
    Except String (List String × HistoryStore) :=
  match typing with
  | .error e => .error e
  | .ok _ =>
    match tryBody resolveSender historyStep promptStep instrStep modelStep
        store msg with
    | .ok r => .ok r
    | .error (e, s) => .ok ([errorReply e], s)

/-- The concrete history step of lines 176-189: create the empty entry when
absent, then read the stored list. -/
def historyStepImpl (s : HistoryStore) (cid : String) :
    Except String (HistoryStore × List Turn) :=
  let s1 := initConversation s cid
  .ok (s1, turnsOf s1 cid)

/-- `handle_message` with the source's pure steps filled in: `senderName` is
the resolved display name (empty when unresolvable) and `modelOutcome` the
model client's behaviour, an exception or an optional response content.
Returns the replies after the typing indicator and the updated store. -/
def handleMessage (senderName : String)
    (modelOutcome : Except String (Option String))
    (store : HistoryStore) (msg : InboundMessage) :
    List String × HistoryStore :=
  match tryBody (.ok senderName) historyStepImpl
      (fun hist name text => .ok (contextualInput hist name text))
      (fun name => .ok (fullInstructions name))
      (fun _ _ => modelOutcome) store msg with
  | .ok r => r
  | .error (e, s) => ([errorReply e], s)

/-- `N` consecutive exchanges on one conversation: each list element is the
sender name, the inbound text and the model's (successful) response of one
exchange. -/
def runExchanges (cid : String) (store : HistoryStore) :
    List (String × String × String) → HistoryStore
  | [] => store
  | e :: rest =>
    runExchanges cid
      (handleMessage e.1 (.ok (some e.2.2)) store
        { text := e.2.1, conversationId := cid }).2 rest

/-! ## Helper lemmas on the history store -/

theorem histFind_histSet_self (s : HistoryStore) (cid : String) (ts : List Turn) :
    histFind (histSet s cid ts) cid = some ts := by
  induction s with
  | nil => simp [histSet, histFind]
  | cons kv rest ih =>
    obtain ⟨k, v⟩ := kv
    by_cases hk : k = cid
    · simp [histSet, histFind, hk]
    · simp [histSet, histFind, hk, ih]

theorem histFind_histSet_ne (s : HistoryStore) (cid c : String) (ts : List Turn)
    (h : c ≠ cid) : histFind (histSet s cid ts) c = histFind s c := by
  induction s with
  | nil =>
    simp only [histSet, histFind]
    rw [if_neg (Ne.symm h)]
  | cons kv rest ih =>
    obtain ⟨k, v⟩ := kv
    by_cases hk : k = cid
    · subst hk
      simp only [histSet, if_pos rfl, histFind]
      rw [if_neg (Ne.symm h), if_neg (Ne.symm h)]
    · simp only [histSet, if_neg hk, histFind, ih]

theorem turnsOf_initConversation (s : HistoryStore) (cid c : String) :
    turnsOf (initConversation s cid) c = turnsOf s c := by
  rw [initConversation]
  cases hf : histFind s cid with
  | some v => rfl
  | none =>
    by_cases hc : c = cid
    · subst hc
      rw [turnsOf, histFind_histSet_self, turnsOf, hf]
      rfl
    · rw [turnsOf, histFind_histSet_ne s cid c _ hc, turnsOf]

theorem histFind_initConversation_ne (s : HistoryStore) (cid c : String)
    (h : c ≠ cid) : histFind (initConversation s cid) c = histFind s c := by
  rw [initConversation]
  cases hf : histFind s cid with
  | some v => rfl
  | none => exact histFind_histSet_ne s cid c _ h

theorem turnsOf_appendExchange_self (s : HistoryStore) (cid um ar : String) :
    turnsOf (appendExchange s cid um ar) cid =
      turnsOf s cid ++
        [{ role := "user", content := um }, { role := "assistant", content := ar }] := by
  rw [appendExchange, turnsOf, histFind_histSet_self]
  rfl

theorem histFind_appendExchange_ne (s : HistoryStore) (cid c um ar : String)
    (h : c ≠ cid) : histFind (appendExchange s cid um ar) c = histFind s c :=
  histFind_histSet_ne s cid c _ h

/-! ## Helper lemmas on the handler's branches -/

theorem handleMessage_success (senderName resp : String) (store : HistoryStore)
    (msg : InboundMessage) (h : resp ≠ "") :
    handleMessage senderName (.ok (some resp)) store msg =
      ([resp],
        appendExchange (initConversation store msg.conversationId)
          msg.conversationId msg.text resp) := by
  simp [handleMessage, tryBody, historyStepImpl, h]

theorem handleMessage_error (senderName e : String) (store : HistoryStore)
    (msg : InboundMessage) :
    handleMessage senderName (.error e) store msg =
      ([errorReply e], initConversation store msg.conversationId) := rfl

theorem handleMessage_none (senderName : String) (store : HistoryStore)
    (msg : InboundMessage) :
    handleMessage senderName (.ok none) store msg =
      ([fallbackReply], initConversation store msg.conversationId) := rfl

theorem handleMessage_emptyContent (senderName : String) (store : HistoryStore)
    (msg : InboundMessage) :
    handleMessage senderName (.ok (some "")) store msg =
      ([fallbackReply], initConversation store msg.conversationId) := by
  simp [handleMessage, tryBody, historyStepImpl]

theorem userContextPrefix_data (user_name : String) :
    ∃ r : List Char, (userContextPrefix user_name).data = 'U' :: r := by
  rw [userContextPrefix]
  by_cases h : user_name = ""
  · refine ⟨"ser".data, ?_⟩
    rw [if_neg (by simp [h])]
  · refine ⟨"ser (".data ++ user_name.data ++ ")".data, ?_⟩
    rw [if_pos h, String.data_append, String.data_append]
    have h1 : ("User (" : String).data = 'U' :: "ser (".data := rfl
    rw [h1]
    simp

/-- A list of six turns used to instantiate the window theorem. -/
def sixTurns : List Turn :=
  [{ role := "user", content := "m1" }, { role := "assistant", content := "r1" },
   { role := "user", content := "m2" }, { role := "assistant", content := "r2" },
   { role := "user", content := "m3" }, { role := "assistant", content := "r3" }]

/-! ## The claims -/

/-- C1: for every stored history and inbound message, the rendered history
context in the assembled prompt is built from at most the five most recent
stored turns — a suffix of the stored list (hence oldest first, in stored
order) of length `min 5 (length hist)` — regardless of how many turns the
history holds. -/
theorem history_window_at_most_five (hist : List Turn)
    (user_name user_message : String) (h : hist ≠ []) :
    ∃ recent : List Turn,
      recent.length ≤ 5 ∧
      recent.length = min 5 hist.length ∧
      List.IsSuffix recent hist ∧
      contextualInput hist user_name user_message =
        "Conversation history:\n" ++ contextSummary recent ++ "\n\n"
          ++ userContextPrefix user_name ++ " request: " ++ user_message := by
  refine ⟨lastFive hist, ?_, ?_, ?_, ?_⟩
  · rw [lastFive, List.length_drop]
    omega
  · rw [lastFive, List.length_drop]
    omega
  · exact List.drop_suffix _ _
  · rw [contextualInput, if_pos (List.length_pos.mpr h)]

theorem history_window_at_most_five_witness :
    ∃ recent : List Turn,
      recent.length ≤ 5 ∧
      recent.length = min 5 sixTurns.length ∧
      List.IsSuffix recent sixTurns ∧
      contextualInput sixTurns "Alex" "hello" =
        "Conversation history:\n" ++ contextSummary recent ++ "\n\n"
          ++ userContextPrefix "Alex" ++ " request: " ++ "hello" :=
  history_window_at_most_five sixTurns "Alex" "hello" (by decide)

/-- C3: on an empty stored history the assembled prompt is exactly the
user-context prefix followed by the current message, and it does not start
with the "Conversation history:" prefix. -/
theorem prompt_empty_history (user_name user_message : String) :
    contextualInput [] user_name user_message =
      userContextPrefix user_name ++ " request: " ++ user_message ∧
    ∀ rest : String, contextualInput [] user_name user_message ≠
      "Conversation history:" ++ rest := by
  constructor
  · rfl
  · intro rest he
    obtain ⟨r, hr⟩ := userContextPrefix_data user_name
    have hd := congrArg String.data he
    rw [contextualInput] at hd
    simp only [List.length_nil] at hd
    rw [if_neg (lt_irrefl 0)] at hd
    rw [String.data_append, String.data_append, String.data_append, hr] at hd
    have hc : ("Conversation history:" : String).data =
        'C' :: "onversation history:".data := rfl
    rw [hc] at hd
    simp at hd

/-- C6: with a resolvable non-empty sender name the assembled instruction
text is the base instructions followed by the user-context note naming the
sender; with no resolvable sender it equals the base instructions. -/
theorem instructions_user_context_note (user_name : String)
    (h : user_name ≠ "") :
    fullInstructions user_name =
      base_instructions ++
        ("\n\n## CURRENT USER CONTEXT\nThe person making this request is: "
          ++ user_name
          ++ ". Use this name for tools that require userName or sender parameters.") ∧
    fullInstructions "" = base_instructions := by
  constructor
  · rw [fullInstructions, userMetadataNote, if_pos h]
  · rw [fullInstructions, userMetadataNote, if_neg (by simp)]
    exact String.append_empty _

theorem instructions_user_context_note_witness :
    fullInstructions "Alex" =
      base_instructions ++
        ("\n\n## CURRENT USER CONTEXT\nThe person making this request is: "
          ++ "Alex"
          ++ ". Use this name for tools that require userName or sender parameters.") ∧
    fullInstructions "" = base_instructions :=
  instructions_user_context_note "Alex" (by decide)

/-- C4: when the model client raises with description `e`, the reply is
exactly `"Sorry, I encountered an error: " ++ e` and no conversation's
stored turn list changes. -/
theorem model_error_reply (senderName e : String) (store : HistoryStore)
    (msg : InboundMessage) :
    (handleMessage senderName (.error e) store msg).1 =
      ["Sorry, I encountered an error: " ++ e] ∧
    ∀ c : String,
      turnsOf (handleMessage senderName (.error e) store msg).2 c =
        turnsOf store c := by
  rw [handleMessage_error]
  exact ⟨rfl, fun c => turnsOf_initConversation store msg.conversationId c⟩

/-- C5: when the model client returns an absent or empty response, the reply
is the fixed fallback string and no conversation's stored turn list
changes. -/
theorem model_empty_reply (senderName : String) (content : Option String)
    (store : HistoryStore) (msg : InboundMessage)
    (h : content = none ∨ content = some "") :
    (handleMessage senderName (.ok content) store msg).1 =
      ["I'm sorry, I couldn't generate a response."] ∧
    ∀ c : String,
      turnsOf (handleMessage senderName (.ok content) store msg).2 c =
        turnsOf store c := by
  rcases h with h | h
  · subst h
    rw [handleMessage_none]
    exact ⟨rfl, fun c => turnsOf_initConversation store msg.conversationId c⟩
  · subst h
    rw [handleMessage_emptyContent]
    exact ⟨rfl, fun c => turnsOf_initConversation store msg.conversationId c⟩

theorem model_empty_reply_witness :
    (handleMessage "Alex" (.ok none)
      [("c1", [{ role := "user", content := "hi" }])]
      { text := "again", conversationId := "c1" }).1 =
      ["I'm sorry, I couldn't generate a response."] ∧
    ∀ c : String,
      turnsOf (handleMessage "Alex" (.ok none)
        [("c1", [{ role := "user", content := "hi" }])]
        { text := "again", conversationId := "c1" }).2 c =
        turnsOf [("c1", [{ role := "user", content := "hi" }])] c :=
  model_empty_reply "Alex" none
    [("c1", [{ role := "user", content := "hi" }])]
    { text := "again", conversationId := "c1" } (Or.inl rfl)

/-- C9: handling one inbound message for a conversation leaves the stored
entry of every other conversation identifier unchanged. -/
theorem other_conversations_unchanged (senderName : String)
    (modelOutcome : Except String (Option String))
    (store : HistoryStore) (msg : InboundMessage) (c : String)
    (h : c ≠ msg.conversationId) :
    histFind (handleMessage senderName modelOutcome store msg).2 c =
      histFind store c := by
  cases modelOutcome with
  | error e =>
    rw [handleMessage_error]
    exact histFind_initConversation_ne store msg.conversationId c h
  | ok content =>
    cases content with
    | none =>
      rw [handleMessage_none]
      exact histFind_initConversation_ne store msg.conversationId c h
    | some resp =>
      by_cases hr : resp = ""
      · subst hr
        rw [handleMessage_emptyContent]
        exact histFind_initConversation_ne store msg.conversationId c h
      · rw [handleMessage_success senderName resp store msg hr,
          histFind_appendExchange_ne _ _ _ _ _ h]
        exact histFind_initConversation_ne store msg.conversationId c h

theorem other_conversations_unchanged_witness :
    histFind (handleMessage "Alex" (.ok (some "yo"))
      [("other", [{ role := "user", content := "x" }])]
      { text := "hi", conversationId := "c1" }).2 "other" =
      histFind [("other", [{ role := "user", content := "x" }])] "other" :=
  other_conversations_unchanged "Alex" (.ok (some "yo"))
    [("other", [{ role := "user", content := "x" }])]
    { text := "hi", conversationId := "c1" } "other" (by decide)

theorem turnsOf_runExchanges (cid : String)
    (exs : List (String × String × String)) (store : HistoryStore)
    (hne : ∀ e ∈ exs, e.2.2 ≠ "") :
    turnsOf (runExchanges cid store exs) cid =
      turnsOf store cid ++
        (exs.map fun e =>
          [Turn.mk "user" e.2.1, Turn.mk "assistant" e.2.2]).flatten := by
  induction exs generalizing store with
  | nil => simp [runExchanges]
  | cons e rest ih =>
    rw [runExchanges,
      handleMessage_success e.1 e.2.2 store _ (hne e (List.mem_cons_self _ _)),
      ih _ (fun x hx => hne x (List.mem_cons_of_mem _ hx)),
      turnsOf_appendExchange_self, turnsOf_initConversation]
    simp

theorem flatten_pairs_length (exs : List (String × String × String)) :
    ((exs.map fun e =>
      [Turn.mk "user" e.2.1, Turn.mk "assistant" e.2.2]).flatten).length =
      2 * exs.length := by
  induction exs with
  | nil => rfl
  | cons e rest ih =>
    simp only [List.map_cons, List.flatten_cons, List.length_append, ih,
      List.length_cons, List.length_nil]
    omega

/-- C2: after `N` successful exchanges on one conversation (each with a
non-empty model response), the stored turn list for that conversation is
exactly the exchanges' user/assistant pairs in arrival order — `2N` turns,
alternating a `user` turn carrying the inbound text with an `assistant`
turn carrying the response of that exchange. -/
theorem history_after_exchanges (cid : String) (store : HistoryStore)
    (exs : List (String × String × String))
    (h0 : turnsOf store cid = [])
    (hne : ∀ e ∈ exs, e.2.2 ≠ "") :
    turnsOf (runExchanges cid store exs) cid =
      (exs.map fun e =>
        [Turn.mk "user" e.2.1, Turn.mk "assistant" e.2.2]).flatten ∧
    (turnsOf (runExchanges cid store exs) cid).length = 2 * exs.length := by
  have h1 := turnsOf_runExchanges cid exs store hne
  rw [h0, List.nil_append] at h1
  exact ⟨h1, by rw [h1, flatten_pairs_length]⟩

theorem history_after_exchanges_witness :
    turnsOf (runExchanges "c1" []
      [("Alex", "hi", "hello"), ("", "how are you", "fine")]) "c1" =
      (([("Alex", "hi", "hello"), ("", "how are you", "fine")] :
          List (String × String × String)).map fun e =>
        [Turn.mk "user" e.2.1, Turn.mk "assistant" e.2.2]).flatten ∧
    (turnsOf (runExchanges "c1" []
      [("Alex", "hi", "hello"), ("", "how are you", "fine")]) "c1").length =
      2 * ([("Alex", "hi", "hello"), ("", "how are you", "fine")] :
        List (String × String × String)).length :=
  history_after_exchanges "c1" []
    [("Alex", "hi", "hello"), ("", "how are you", "fine")] rfl (by decide)

/-- C7 counterexample: with an empty inbound text and a non-empty model
response the success path relays the response yet appends a `user` turn
whose content is the empty string, so not every turn appended by the
success path has non-empty content. -/
theorem success_path_appends_empty_user_turn :
    (handleMessage "" (.ok (some "hello")) []
      { text := "", conversationId := "c1" }).1 = ["hello"] ∧
    ∃ t ∈ turnsOf (handleMessage "" (.ok (some "hello")) []
      { text := "", conversationId := "c1" }).2 "c1", t.content = "" := by
  refine ⟨rfl, ⟨{ role := "user", content := "" }, ?_, rfl⟩⟩
  rw [handleMessage_success "" "hello" [] _ (by decide),
    turnsOf_appendExchange_self, turnsOf_initConversation]
  simp [turnsOf, histFind]

/-- C7 amended: the success path appends exactly the `user` turn carrying
the inbound text and the `assistant` turn carrying the model response; the
assistant turn's content is non-empty on this path, and the user turn's is
non-empty whenever the inbound message text is non-empty. -/
theorem appended_turns_nonempty (senderName resp text cid : String)
    (store : HistoryStore) (hr : resp ≠ "") (ht : text ≠ "") :
    turnsOf (handleMessage senderName (.ok (some resp)) store
      { text := text, conversationId := cid }).2 cid =
      turnsOf store cid ++
        [{ role := "user", content := text },
         { role := "assistant", content := resp }] ∧
    ∀ t ∈ [Turn.mk "user" text, Turn.mk "assistant" resp], t.content ≠ "" := by
  constructor
  · rw [handleMessage_success senderName resp store _ hr,
      turnsOf_appendExchange_self, turnsOf_initConversation]
  · intro t htm
    rcases List.mem_cons.mp htm with h1 | h1
    · subst h1
      exact ht
    · rcases List.mem_cons.mp h1 with h2 | h2
      · subst h2
        exact hr
      · cases h2

theorem appended_turns_nonempty_witness :
    turnsOf (handleMessage "Alex" (.ok (some "hello")) []
      { text := "hi", conversationId := "c1" }).2 "c1" =
      turnsOf [] "c1" ++
        [{ role := "user", content := "hi" },
         { role := "assistant", content := "hello" }] ∧
    ∀ t ∈ [Turn.mk "user" "hi", Turn.mk "assistant" "hello"],
      t.content ≠ "" :=
  appended_turns_nonempty "Alex" "hello" "hi" "c1" [] (by decide) (by decide)

/-- C8: an error exit of the try-body — a failure raised during sender
resolution, history lookup, prompt assembly, instruction construction or
model invocation, whatever those steps do — is caught at the handler
boundary: the handler returns normally with the single error reply
embedding the failure's description, and no exception propagates. -/
theorem step_failures_caught (resolveSender : Except String String)
    (historyStep : HistoryStore → String → Except String (HistoryStore × List Turn))
    (promptStep : List Turn → String → String → Except String String)
    (instrStep : String → Except String String)
    (modelStep : String → String → Except String (Option String))
    (store s' : HistoryStore) (msg : InboundMessage) (e : String)
    (h : tryBody resolveSender historyStep promptStep instrStep modelStep
      store msg = .error (e, s')) :
    handleMessageRaw (.ok ()) resolveSender historyStep promptStep instrStep
      modelStep store msg = .ok ([errorReply e], s') := by
  rw [handleMessageRaw, h]

theorem step_failures_caught_witness :
    handleMessageRaw (.ok ()) (.error "boom")
      (fun s _ => .ok (s, [])) (fun _ _ _ => .ok "") (fun _ => .ok "")
      (fun _ _ => .ok none) [] { text := "hi", conversationId := "c1" } =
      .ok ([errorReply "boom"], []) :=
  step_failures_caught (.error "boom") (fun s _ => .ok (s, []))
    (fun _ _ _ => .ok "") (fun _ => .ok "") (fun _ _ => .ok none)
    [] [] { text := "hi", conversationId := "c1" } "boom" rfl

/-- C10: the typing acknowledgment stands before the error-catching region:
when it fails, the failure propagates out of the handler unchanged and no
reply — error reply included — is produced for the inbound message. -/
theorem typing_failure_propagates (e : String)
    (resolveSender : Except String String)
    (historyStep : HistoryStore → String → Except String (HistoryStore × List Turn))
    (promptStep : List Turn → String → String → Except String String)
    (instrStep : String → Except String String)
    (modelStep : String → String → Except String (Option String))
    (store : HistoryStore) (msg : InboundMessage) :
    handleMessageRaw (.error e) resolveSender historyStep promptStep
      instrStep modelStep store msg = .error e := rfl

end Batool
